import Mathlib

/-!
Verification of the OIT (order-independent transparency) buffer-management core of
`crates/bevy_core_pipeline/src/oit/mod.rs`.

The embedding covers:

* the per-camera input records seen by `prepare_oit_buffers` (an `ExtractedCamera`
  with an optional `physical_target_size`, paired with
  `OrderIndependentTransparencySettings { layer_count: u8 }`, each carrying a
  change-detection flag);
* the growable GPU buffer abstraction `BufferVec` — its code lives in `bevy_render`,
  outside the file under verification, so it is modelled from the specified resource
  contract (`capacity`, `reserve(min_capacity, device)`, `push`, `write_buffer`);
* `OitBuffers::from_world` (initial provisioning) and `prepare_oit_buffers`
  (demand aggregation and lazy growth).

Machine arithmetic: `u32` and `usize` values are represented as `Nat`, with an
explicit `% 2 ^ 32` on the `u32` multiplication `size.x * size.y` and wrapping
`usize` subtraction for `required - capacity` (release-profile Rust semantics; a
debug build would panic at the same point instead of wrapping).
-/

/-- The slice of `ExtractedCamera` read by `prepare_oit_buffers`
(`camera.physical_target_size : Option<UVec2>`), together with the
`Changed<ExtractedCamera>` flag of the render-world query. Dimensions are `u32`. -/
structure ExtractedCamera where
  physical_target_size : Option (Nat × Nat)
  extracted_changed : Bool
deriving Repr, DecidableEq

/-- `OrderIndependentTransparencySettings { layer_count : u8 }` together with the
`Changed<OrderIndependentTransparencySettings>` flag of the query. -/
structure OitSettings where
  layer_count : Nat
  settings_changed : Bool
deriving Repr, DecidableEq

/-- One row of the camera query of `prepare_oit_buffers`:
`(&ExtractedCamera, &OrderIndependentTransparencySettings)`. -/
structure OitCamera where
  camera : ExtractedCamera
  settings : OitSettings
deriving Repr, DecidableEq

/-- Default `OrderIndependentTransparencySettings`: `layer_count = 8`. -/
def OitSettings.default : OitSettings := ⟨8, true⟩

/-- Modelled from the spec: the growable GPU buffer (`BufferVec<T>` of `bevy_render`,
whose code is outside the file under verification). Per the buffer resource
contract it exposes `capacity`, `reserve(min_capacity, device)`, `push(element)`
and `write_buffer` (a full upload of the current contents). `data` is the logical
CPU-side contents, `allocated` records that a GPU allocation (possibly
zero-sized-but-allocated) backs the buffer, and `uploaded` is the GPU-resident
copy written by the last `write_buffer` (`none` before any upload). -/
structure BufferVec (α : Type) where
  capacity : Nat
  data : List α
  allocated : Bool
  uploaded : Option (List α)
deriving Repr, DecidableEq

/-- `BufferVec::new(usage)`: empty, nothing allocated or uploaded yet.
The `BufferUsages` argument does not affect sizing and is omitted. -/
def BufferVec.new (α : Type) : BufferVec α := ⟨0, [], false, none⟩

/-- Modelled from the spec: `reserve(min_capacity, device)` grows the allocation to
at least `min_capacity` when the current capacity is smaller; the device's
allocation policy is abstracted as `alloc`, and per the contract it may
over-provision beyond the requested minimum (`min_capacity ≤ alloc min_capacity`
is the contract assumption used by theorems). A reserve that requests no growth
still leaves the buffer with a valid (possibly zero-sized) allocation. -/
def BufferVec.reserve (alloc : Nat → Nat) (minCap : Nat) (b : BufferVec α) :
    BufferVec α :=
  if b.capacity < minCap then
    { b with capacity := alloc minCap, allocated := true }
  else
    { b with allocated := true }

/-- Modelled from the spec: `push(element)` appends one element to the logical
contents. -/
def BufferVec.push (v : α) (b : BufferVec α) : BufferVec α :=
  { b with data := b.data ++ [v] }

/-- Modelled from the spec: `write_buffer(device, queue)` uploads the full current
contents to the GPU. -/
def BufferVec.write_buffer (b : BufferVec α) : BufferVec α :=
  { b with uploaded := some b.data }

/-- `for _ in 0..n { buffer.push(zero) }`. -/
def pushN (zero : α) : Nat → BufferVec α → BufferVec α
  | 0, b => b
  | n + 1, b => pushN zero n (b.push zero)

/-- Wrapping `usize` subtraction (release-profile semantics of `a - b`; in a debug
build the same underflow panics). Correct for `a b < 2 ^ 64`. -/
def usizeSub (a b : Nat) : Nat := (2 ^ 64 + a - b) % 2 ^ 64

/-- The resource `OitBuffers { layers: BufferVec<UVec2>, layer_ids: BufferVec<i32> }`.
`UVec2` elements are modelled as pairs of `Nat`, `i32` elements as `Int`. -/
structure OitBuffers where
  layers : BufferVec (Nat × Nat)
  layer_ids : BufferVec Int
deriving Repr, DecidableEq

/-- `OitBuffers::from_world`: create both buffers, reserve zero additional capacity
and immediately upload, "so there's a valid binding" before any camera is
processed. `alloc` stands for the render device's allocation policy. -/
def OitBuffers.from_world (alloc : Nat → Nat) : OitBuffers :=
  { layers :=
      ((BufferVec.new (Nat × Nat)).reserve alloc 0).write_buffer,
    layer_ids :=
      ((BufferVec.new Int).reserve alloc 0).write_buffer }

/-- The `u32` multiplication `size.x * size.y` of the source, wrapping modulo
`2 ^ 32`, before the widening cast `as usize`. -/
def pixel_count (sz : Nat × Nat) : Nat := sz.1 * sz.2 % 2 ^ 32

/-- The `usize` multiplication `size * layer_count` (the pixel count is already
widened to `usize` here, so this product wraps at `2 ^ 64`, not `2 ^ 32`). -/
def storage_demand (sz : Nat × Nat) (layer_count : Nat) : Nat :=
  pixel_count sz * layer_count % 2 ^ 64

/-- One iteration of the aggregation loop of `prepare_oit_buffers`: skip a camera
whose `physical_target_size` is absent, otherwise fold the camera's index and
storage demands into the running maxima `(max_layer_ids_size, max_layers_size)`. -/
def aggregateStep (acc : Nat × Nat) (c : OitCamera) : Nat × Nat :=
  match c.camera.physical_target_size with
  | none => acc
  | some sz =>
      (max acc.1 (pixel_count sz),
       max acc.2 (storage_demand sz c.settings.layer_count))

/-- The aggregation loop of `prepare_oit_buffers`, lines 147-158: starting from
`usize::MIN = 0` for both maxima, fold every queried camera. Returns
`(max_layer_ids_size, max_layers_size)`. -/
def computeMaxSizes (cams : List OitCamera) : Nat × Nat :=
  cams.foldl aggregateStep (0, 0)

/-- The camera query filter of `prepare_oit_buffers`:
`(Changed<ExtractedCamera>, Changed<OrderIndependentTransparencySettings>)`.
In Bevy a tuple of query filters is a conjunction, so a camera is yielded only
when BOTH components changed. -/
def oitCameraQuery (cams : List OitCamera) : List OitCamera :=
  cams.filter fun c => c.camera.extracted_changed && c.settings.settings_changed

/-- One growth block of `prepare_oit_buffers` (lines 160-173 for `layers`, lines
175-188 for `layer_ids`): if the buffer's capacity is below the required size,
reserve at least the required size, compute
`remaining = required - capacity()` — note: the capacity read AFTER the reserve —
push `remaining` zero elements, and upload the whole buffer. -/
def growBuffer (alloc : Nat → Nat) (required : Nat) (zero : α)
    (b : BufferVec α) : BufferVec α :=
  if b.capacity < required then
    let b1 := b.reserve alloc required
    let remaining := usizeSub required b1.capacity
    (pushN zero remaining b1).write_buffer
  else
    b

/-- `prepare_oit_buffers`: aggregate the demands of the queried (changed) cameras,
then check and grow each buffer independently. -/
def prepare_oit_buffers (alloc : Nat → Nat) (cams : List OitCamera)
    (buffers : OitBuffers) : OitBuffers :=
  { layers :=
      growBuffer alloc (computeMaxSizes (oitCameraQuery cams)).2 (0, 0)
        buffers.layers,
    layer_ids :=
      growBuffer alloc (computeMaxSizes (oitCameraQuery cams)).1 0
        buffers.layer_ids }

/-! ### Aggregation lemmas -/

/-- Folding `aggregateStep` never decreases either running maximum. -/
theorem foldl_aggregateStep_mono (cams : List OitCamera) (a : Nat × Nat) :
    a.1 ≤ (cams.foldl aggregateStep a).1 ∧ a.2 ≤ (cams.foldl aggregateStep a).2 := by
  induction cams generalizing a with
  | nil => exact ⟨le_refl _, le_refl _⟩
  | cons c cs ih =>
    have step : a.1 ≤ (aggregateStep a c).1 ∧ a.2 ≤ (aggregateStep a c).2 := by
      unfold aggregateStep
      cases c.camera.physical_target_size with
      | none => exact ⟨le_refl _, le_refl _⟩
      | some sz => exact ⟨le_max_left _ _, le_max_left _ _⟩
    have ih' := ih (aggregateStep a c)
    exact ⟨le_trans step.1 ih'.1, le_trans step.2 ih'.2⟩

/-- Every camera of the folded list with a present viewport has its demands
bounded by the fold result. -/
theorem foldl_aggregateStep_le (cams : List OitCamera) (a : Nat × Nat)
    (c : OitCamera) (hc : c ∈ cams) (sz : Nat × Nat)
    (hsz : c.camera.physical_target_size = some sz) :
    pixel_count sz ≤ (cams.foldl aggregateStep a).1 ∧
      storage_demand sz c.settings.layer_count ≤ (cams.foldl aggregateStep a).2 := by
  induction cams generalizing a with
  | nil => cases hc
  | cons d ds ih =>
    rcases List.mem_cons.mp hc with rfl | hmem
    · have step : pixel_count sz ≤ (aggregateStep a c).1 ∧
          storage_demand sz c.settings.layer_count ≤ (aggregateStep a c).2 := by
        unfold aggregateStep
        rw [hsz]
        exact ⟨le_max_right _ _, le_max_right _ _⟩
      have mono := foldl_aggregateStep_mono ds (aggregateStep a c)
      exact ⟨le_trans step.1 mono.1, le_trans step.2 mono.2⟩
    · exact ih (aggregateStep a d) hmem

/-- Each component of the fold result is either the starting accumulator's
component or the corresponding demand of some camera of the list with a present
viewport. -/
theorem foldl_aggregateStep_attained (cams : List OitCamera) (a : Nat × Nat) :
    ((cams.foldl aggregateStep a).1 = a.1 ∨
      ∃ c ∈ cams, ∃ sz, c.camera.physical_target_size = some sz ∧
        (cams.foldl aggregateStep a).1 = pixel_count sz) ∧
    ((cams.foldl aggregateStep a).2 = a.2 ∨
      ∃ c ∈ cams, ∃ sz, c.camera.physical_target_size = some sz ∧
        (cams.foldl aggregateStep a).2 = storage_demand sz c.settings.layer_count) := by
  induction cams generalizing a with
  | nil => exact ⟨Or.inl rfl, Or.inl rfl⟩
  | cons c cs ih =>
    have ih' := ih (aggregateStep a c)
    have hstep1 : (aggregateStep a c).1 = a.1 ∨
        ∃ sz, c.camera.physical_target_size = some sz ∧
          (aggregateStep a c).1 = pixel_count sz := by
      unfold aggregateStep
      cases hp : c.camera.physical_target_size with
      | none => exact Or.inl rfl
      | some sz =>
        rcases Nat.le_total a.1 (pixel_count sz) with h | h
        · exact Or.inr ⟨sz, rfl, max_eq_right h⟩
        · exact Or.inl (max_eq_left h)
    have hstep2 : (aggregateStep a c).2 = a.2 ∨
        ∃ sz, c.camera.physical_target_size = some sz ∧
          (aggregateStep a c).2 = storage_demand sz c.settings.layer_count := by
      unfold aggregateStep
      cases hp : c.camera.physical_target_size with
      | none => exact Or.inl rfl
      | some sz =>
        rcases Nat.le_total a.2 (storage_demand sz c.settings.layer_count) with h | h
        · exact Or.inr ⟨sz, rfl, max_eq_right h⟩
        · exact Or.inl (max_eq_left h)
    constructor
    · rcases ih'.1 with heq | ⟨d, hd, sz, hdsz, hval⟩
      · rcases hstep1 with h1 | ⟨sz, hcsz, h1⟩
        · exact Or.inl (by rw [List.foldl_cons, heq, h1])
        · exact Or.inr ⟨c, List.mem_cons_self _ _,
            sz, hcsz, by rw [List.foldl_cons, heq, h1]⟩
      · exact Or.inr ⟨d, List.mem_cons_of_mem _ hd, sz, hdsz, hval⟩
    · rcases ih'.2 with heq | ⟨d, hd, sz, hdsz, hval⟩
      · rcases hstep2 with h2 | ⟨sz, hcsz, h2⟩
        · exact Or.inl (by rw [List.foldl_cons, heq, h2])
        · exact Or.inr ⟨c, List.mem_cons_self _ _,
            sz, hcsz, by rw [List.foldl_cons, heq, h2]⟩
      · exact Or.inr ⟨d, List.mem_cons_of_mem _ hd, sz, hdsz, hval⟩

/-! ### Growth lemmas -/

/-- `pushN` only appends to the data; capacity, allocation flag and uploaded copy
are untouched. -/
theorem pushN_eq (zero : α) (n : Nat) (b : BufferVec α) :
    pushN zero n b =
      { b with data := b.data ++ List.replicate n zero } := by
  induction n generalizing b with
  | zero => simp [pushN]
  | succ m ih =>
    rw [pushN, ih]
    simp [BufferVec.push, List.replicate_succ]

/-- A growth block whose requirement is already met leaves the buffer untouched. -/
theorem growBuffer_noop (alloc : Nat → Nat) (required : Nat) (zero : α)
    (b : BufferVec α) (h : required ≤ b.capacity) :
    growBuffer alloc required zero b = b := by
  unfold growBuffer
  rw [if_neg (Nat.not_lt.mpr h)]

/-- A growth block that fires sets the capacity to whatever the allocator grants
for the required size, and uploads the resulting contents. -/
theorem growBuffer_grown (alloc : Nat → Nat) (required : Nat) (zero : α)
    (b : BufferVec α) (h : b.capacity < required) :
    (growBuffer alloc required zero b).capacity = alloc required ∧
      (growBuffer alloc required zero b).uploaded =
        some (growBuffer alloc required zero b).data ∧
      (growBuffer alloc required zero b).data =
        b.data ++ List.replicate (usizeSub required (alloc required)) zero := by
  simp only [growBuffer, BufferVec.reserve, BufferVec.write_buffer, pushN_eq,
    if_pos h]
  exact ⟨trivial, trivial, trivial⟩

/-- Capacity never decreases across one growth block, given the allocator
contract (the granted capacity is at least the requested one). -/
theorem growBuffer_capacity_mono (alloc : Nat → Nat)
    (hal : ∀ n, n ≤ alloc n) (required : Nat) (zero : α) (b : BufferVec α) :
    b.capacity ≤ (growBuffer alloc required zero b).capacity := by
  by_cases h : b.capacity < required
  · rw [(growBuffer_grown alloc required zero b h).1]
    exact le_trans (le_of_lt h) (hal required)
  · rw [growBuffer_noop alloc required zero b (Nat.not_lt.mp h)]

/-- After a growth block the capacity meets the requirement, given the allocator
contract. -/
theorem growBuffer_capacity_ge (alloc : Nat → Nat)
    (hal : ∀ n, n ≤ alloc n) (required : Nat) (zero : α) (b : BufferVec α) :
    required ≤ (growBuffer alloc required zero b).capacity := by
  by_cases h : b.capacity < required
  · rw [(growBuffer_grown alloc required zero b h).1]
    exact hal required
  · rw [growBuffer_noop alloc required zero b (Nat.not_lt.mp h)]
    exact Nat.not_lt.mp h

/-! ### Claim theorems -/

/-- C1: the required sizes computed by `prepare_oit_buffers` are global maxima over
the considered cameras (those whose `physical_target_size` is present; absent
viewports contribute no demand): `max_layer_ids_size` bounds and is attained by
(or zero in absence of) some camera's `width * height` demand, and
`max_layers_size` likewise for `width * height * layer_count` — a maximum, never
a sum. -/
theorem oit_required_sizes_are_maxima (cams : List OitCamera) :
    (∀ c ∈ cams, ∀ sz, c.camera.physical_target_size = some sz →
        pixel_count sz ≤ (computeMaxSizes cams).1 ∧
        storage_demand sz c.settings.layer_count ≤ (computeMaxSizes cams).2) ∧
    ((computeMaxSizes cams).1 = 0 ∨
      ∃ c ∈ cams, ∃ sz, c.camera.physical_target_size = some sz ∧
        (computeMaxSizes cams).1 = pixel_count sz) ∧
    ((computeMaxSizes cams).2 = 0 ∨
      ∃ c ∈ cams, ∃ sz, c.camera.physical_target_size = some sz ∧
        (computeMaxSizes cams).2 = storage_demand sz c.settings.layer_count) := by
  refine ⟨?_, ?_, ?_⟩
  · intro c hc sz hsz
    exact foldl_aggregateStep_le cams (0, 0) c hc sz hsz
  · exact (foldl_aggregateStep_attained cams (0, 0)).1
  · exact (foldl_aggregateStep_attained cams (0, 0)).2

/-- Witness for C1 at the spec's two-camera example A(100×100, L=8), B(50×50,
L=16): A's index demand is bounded by the aggregate. -/
theorem oit_required_sizes_are_maxima_witness :
    pixel_count (100, 100) ≤
      (computeMaxSizes [⟨⟨some (100, 100), true⟩, ⟨8, true⟩⟩,
        ⟨⟨some (50, 50), true⟩, ⟨16, true⟩⟩]).1 :=
  ((oit_required_sizes_are_maxima
      [⟨⟨some (100, 100), true⟩, ⟨8, true⟩⟩,
        ⟨⟨some (50, 50), true⟩, ⟨16, true⟩⟩]).1
    ⟨⟨some (100, 100), true⟩, ⟨8, true⟩⟩ (by simp) (100, 100) rfl).1

/-- C10: the per-camera pixel count is a 32-bit unsigned multiplication before the
widening cast: it equals the mathematical product exactly when that product is
below `2 ^ 32`, and is the product modulo `2 ^ 32` (hence not the product) for
larger targets. -/
theorem oit_pixel_count_u32_wrap (w h : Nat) :
    pixel_count (w, h) = w * h % 2 ^ 32 ∧
      (w * h < 2 ^ 32 → pixel_count (w, h) = w * h) ∧
      (2 ^ 32 ≤ w * h → pixel_count (w, h) ≠ w * h) := by
  refine ⟨rfl, fun hlt => Nat.mod_eq_of_lt hlt, fun hge => ?_⟩
  have hlt : pixel_count (w, h) < 2 ^ 32 := Nat.mod_lt _ (by norm_num)
  exact Nat.ne_of_lt (lt_of_lt_of_le hlt hge)

/-- Witness for C10 at a 65536×65536 target, whose true pixel count `2 ^ 32`
wraps to `0`. -/
theorem oit_pixel_count_u32_wrap_witness :
    pixel_count (65536, 65536) ≠ 65536 * 65536 :=
  (oit_pixel_count_u32_wrap 65536 65536).2.2 (by norm_num)

/-- C3 counterexample: a camera with a present 10×10 viewport whose extracted
record changed but whose OIT settings did not change is filtered out by the
conjunctive query filter, so its index demand of 100 is NOT included in the
frame's aggregation maxima (which stay at 0). -/
theorem oit_changed_filter_conjunction_cex :
    ¬ pixel_count (10, 10) ≤
      (computeMaxSizes (oitCameraQuery
        [⟨⟨some (10, 10), true⟩, ⟨8, false⟩⟩])).1 := by
  decide

/-- C3 as amended: a camera with a present viewport is included in the frame's
aggregation maxima when BOTH its extracted camera record and its OIT settings
changed since the previous frame (the query filter tuple is a conjunction, so
one change alone does not suffice). -/
theorem oit_demand_included_when_both_changed (cams : List OitCamera)
    (c : OitCamera) (hc : c ∈ cams) (hcam : c.camera.extracted_changed = true)
    (hset : c.settings.settings_changed = true) (sz : Nat × Nat)
    (hsz : c.camera.physical_target_size = some sz) :
    pixel_count sz ≤ (computeMaxSizes (oitCameraQuery cams)).1 ∧
      storage_demand sz c.settings.layer_count ≤
        (computeMaxSizes (oitCameraQuery cams)).2 := by
  have hmem : c ∈ oitCameraQuery cams := by
    unfold oitCameraQuery
    exact List.mem_filter.mpr ⟨hc, by rw [hcam, hset]; rfl⟩
  exact foldl_aggregateStep_le (oitCameraQuery cams) (0, 0) c hmem sz hsz

/-- Witness for the amended C3: a fully-changed 10×10 camera's index demand is
included. -/
theorem oit_demand_included_when_both_changed_witness :
    pixel_count (10, 10) ≤
      (computeMaxSizes (oitCameraQuery
        [⟨⟨some (10, 10), true⟩, ⟨8, true⟩⟩])).1 :=
  (oit_demand_included_when_both_changed
    [⟨⟨some (10, 10), true⟩, ⟨8, true⟩⟩]
    ⟨⟨some (10, 10), true⟩, ⟨8, true⟩⟩ (by simp) rfl rfl (10, 10) rfl).1

/-- C8: `OitBuffers::from_world` reserves both buffers to a minimum (zero
additional) capacity and immediately uploads them, so the returned resource has
both buffers allocated (bindable), uploaded (with their — empty — contents), and
with a defined, zero, capacity, whatever the device's allocation policy. -/
theorem oit_from_world_initialized (alloc : Nat → Nat) :
    (OitBuffers.from_world alloc).layers.allocated = true ∧
      (OitBuffers.from_world alloc).layers.uploaded =
        some (OitBuffers.from_world alloc).layers.data ∧
      (OitBuffers.from_world alloc).layers.capacity = 0 ∧
      (OitBuffers.from_world alloc).layer_ids.allocated = true ∧
      (OitBuffers.from_world alloc).layer_ids.uploaded =
        some (OitBuffers.from_world alloc).layer_ids.data ∧
      (OitBuffers.from_world alloc).layer_ids.capacity = 0 :=
  ⟨rfl, rfl, rfl, rfl, rfl, rfl⟩

/-- When both aggregate requirements are already met by the current capacities,
`prepare_oit_buffers` returns its input state unchanged. -/
theorem prepare_noop (alloc : Nat → Nat) (cams : List OitCamera)
    (st : OitBuffers)
    (h1 : (computeMaxSizes (oitCameraQuery cams)).1 ≤ st.layer_ids.capacity)
    (h2 : (computeMaxSizes (oitCameraQuery cams)).2 ≤ st.layers.capacity) :
    prepare_oit_buffers alloc cams st = st := by
  unfold prepare_oit_buffers
  rw [growBuffer_noop _ _ _ _ h2, growBuffer_noop _ _ _ _ h1]

/-- C4: across one invocation of `prepare_oit_buffers`, each buffer's capacity is
non-decreasing (given the allocator contract that a reserve grants at least the
requested capacity), and a frame whose requirement is within the current
capacity leaves that buffer entirely unchanged. -/
theorem oit_capacity_monotone (alloc : Nat → Nat) (hal : ∀ n, n ≤ alloc n)
    (cams : List OitCamera) (st : OitBuffers) :
    st.layers.capacity ≤ (prepare_oit_buffers alloc cams st).layers.capacity ∧
      st.layer_ids.capacity ≤
        (prepare_oit_buffers alloc cams st).layer_ids.capacity ∧
      ((computeMaxSizes (oitCameraQuery cams)).2 ≤ st.layers.capacity →
        (prepare_oit_buffers alloc cams st).layers = st.layers) ∧
      ((computeMaxSizes (oitCameraQuery cams)).1 ≤ st.layer_ids.capacity →
        (prepare_oit_buffers alloc cams st).layer_ids = st.layer_ids) :=
  ⟨growBuffer_capacity_mono alloc hal _ _ _,
    growBuffer_capacity_mono alloc hal _ _ _,
    fun h => growBuffer_noop _ _ _ _ h,
    fun h => growBuffer_noop _ _ _ _ h⟩

/-- Witness for C4: with the identity allocation policy, an empty frame on a
fresh pool keeps the layer-storage capacity non-decreasing. -/
theorem oit_capacity_monotone_witness :
    (OitBuffers.from_world id).layers.capacity ≤
      (prepare_oit_buffers id [] (OitBuffers.from_world id)).layers.capacity :=
  (oit_capacity_monotone id (fun n => Nat.le_refl n) []
    (OitBuffers.from_world id)).1

/-- C6: the two buffers are checked and grown independently. A frame whose storage
requirement is met leaves the layer-storage buffer (capacity and contents)
untouched even while the layer-index buffer grows, and symmetrically; the buffer
that does grow is reserved (capacity becomes the allocator's grant for its own
requirement) and re-uploaded. -/
theorem oit_buffers_grow_independently (alloc : Nat → Nat)
    (cams : List OitCamera) (st : OitBuffers) :
    ((computeMaxSizes (oitCameraQuery cams)).2 ≤ st.layers.capacity →
      (prepare_oit_buffers alloc cams st).layers = st.layers) ∧
    ((computeMaxSizes (oitCameraQuery cams)).1 ≤ st.layer_ids.capacity →
      (prepare_oit_buffers alloc cams st).layer_ids = st.layer_ids) ∧
    (st.layer_ids.capacity < (computeMaxSizes (oitCameraQuery cams)).1 →
      (prepare_oit_buffers alloc cams st).layer_ids.capacity =
          alloc (computeMaxSizes (oitCameraQuery cams)).1 ∧
        (prepare_oit_buffers alloc cams st).layer_ids.uploaded =
          some (prepare_oit_buffers alloc cams st).layer_ids.data) ∧
    (st.layers.capacity < (computeMaxSizes (oitCameraQuery cams)).2 →
      (prepare_oit_buffers alloc cams st).layers.capacity =
          alloc (computeMaxSizes (oitCameraQuery cams)).2 ∧
        (prepare_oit_buffers alloc cams st).layers.uploaded =
          some (prepare_oit_buffers alloc cams st).layers.data) :=
  ⟨fun h => growBuffer_noop _ _ _ _ h,
    fun h => growBuffer_noop _ _ _ _ h,
    fun h => ⟨(growBuffer_grown _ _ _ _ h).1, (growBuffer_grown _ _ _ _ h).2.1⟩,
    fun h => ⟨(growBuffer_grown _ _ _ _ h).1, (growBuffer_grown _ _ _ _ h).2.1⟩⟩

/-- Witness for C6: one changed 10×10, 8-layer camera against a pool whose
layer-storage capacity is already 800 but whose layer-index capacity is 0: the
layer-storage buffer is left exactly unchanged while the index requirement (100)
exceeds the index capacity. -/
theorem oit_buffers_grow_independently_witness :
    (prepare_oit_buffers id [⟨⟨some (10, 10), true⟩, ⟨8, true⟩⟩]
        ⟨⟨800, [], true, some []⟩, ⟨0, [], true, some []⟩⟩).layers =
      (⟨⟨800, [], true, some []⟩, ⟨0, [], true, some []⟩⟩ : OitBuffers).layers :=
  (oit_buffers_grow_independently id [⟨⟨some (10, 10), true⟩, ⟨8, true⟩⟩]
    ⟨⟨800, [], true, some []⟩, ⟨0, [], true, some []⟩⟩).1 (by decide)

/-- C9: the growth check is idempotent. A state whose capacities already meet the
frame's required sizes is returned exactly unchanged, and (under the allocator
contract) running `prepare_oit_buffers` twice on the same frame equals running
it once. -/
theorem oit_growth_idempotent (alloc : Nat → Nat) (hal : ∀ n, n ≤ alloc n)
    (cams : List OitCamera) (st : OitBuffers) :
    ((computeMaxSizes (oitCameraQuery cams)).1 ≤ st.layer_ids.capacity →
      (computeMaxSizes (oitCameraQuery cams)).2 ≤ st.layers.capacity →
      prepare_oit_buffers alloc cams st = st) ∧
    prepare_oit_buffers alloc cams (prepare_oit_buffers alloc cams st) =
      prepare_oit_buffers alloc cams st :=
  ⟨fun h1 h2 => prepare_noop alloc cams st h1 h2,
    prepare_noop alloc cams (prepare_oit_buffers alloc cams st)
      (growBuffer_capacity_ge alloc hal _ _ _)
      (growBuffer_capacity_ge alloc hal _ _ _)⟩

/-- Witness for C9: the freshly provisioned pool already satisfies an empty
frame's (zero) demand, so the growth step returns it unchanged. -/
theorem oit_growth_idempotent_witness :
    prepare_oit_buffers id [] (OitBuffers.from_world id) =
      OitBuffers.from_world id :=
  (oit_growth_idempotent id (fun n => Nat.le_refl n) []
    (OitBuffers.from_world id)).1 (by decide) (by decide)

/-- C7 counterexample: a considered camera with a 10×10 viewport and layer count 0
refutes the claim that zero layer count yields zero required sizes and no
mutation: the required index size is 100, and on a fresh pool the layer-index
buffer is grown (mutated). -/
theorem oit_zero_layer_count_nonzero_index_cex :
    (computeMaxSizes (oitCameraQuery
        [⟨⟨some (10, 10), true⟩, ⟨0, true⟩⟩])).1 = 100 ∧
      (prepare_oit_buffers id [⟨⟨some (10, 10), true⟩, ⟨0, true⟩⟩]
          (OitBuffers.from_world id)).layer_ids ≠
        (OitBuffers.from_world id).layer_ids := by
  decide

/-- C7 as amended: a frame with zero considered cameras, or in which every
considered camera has a zero-area viewport (absent viewports contributing
nothing), yields required sizes `(0, 0)` and leaves the pool exactly unchanged —
no growth, no shrink, no re-upload. A zero layer count zeroes only the storage
demand: it yields required storage size 0 and leaves the layer-storage buffer
unchanged, while the index demand may still be nonzero. -/
theorem oit_zero_demand_no_mutation (alloc : Nat → Nat)
    (cams : List OitCamera) (st : OitBuffers) :
    ((∀ c ∈ oitCameraQuery cams, ∀ sz,
        c.camera.physical_target_size = some sz → sz.1 = 0 ∨ sz.2 = 0) →
      computeMaxSizes (oitCameraQuery cams) = (0, 0) ∧
        prepare_oit_buffers alloc cams st = st) ∧
    ((∀ c ∈ oitCameraQuery cams, c.settings.layer_count = 0) →
      (computeMaxSizes (oitCameraQuery cams)).2 = 0 ∧
        (prepare_oit_buffers alloc cams st).layers = st.layers) := by
  constructor
  · intro hzero
    have h1 : (computeMaxSizes (oitCameraQuery cams)).1 = 0 := by
      unfold computeMaxSizes
      rcases (foldl_aggregateStep_attained (oitCameraQuery cams) (0, 0)).1 with
        h | ⟨c, hc, sz, hsz, hval⟩
      · exact h
      · have := hzero c hc sz hsz
        rw [hval]
        unfold pixel_count
        rcases this with h0 | h0 <;> simp [h0]
    have h2 : (computeMaxSizes (oitCameraQuery cams)).2 = 0 := by
      unfold computeMaxSizes
      rcases (foldl_aggregateStep_attained (oitCameraQuery cams) (0, 0)).2 with
        h | ⟨c, hc, sz, hsz, hval⟩
      · exact h
      · have := hzero c hc sz hsz
        rw [hval]
        unfold storage_demand pixel_count
        rcases this with h0 | h0 <;> simp [h0]
    refine ⟨Prod.ext h1 h2, ?_⟩
    exact prepare_noop alloc cams st (h1 ▸ Nat.zero_le _) (h2 ▸ Nat.zero_le _)
  · intro hzero
    have h2 : (computeMaxSizes (oitCameraQuery cams)).2 = 0 := by
      unfold computeMaxSizes
      rcases (foldl_aggregateStep_attained (oitCameraQuery cams) (0, 0)).2 with
        h | ⟨c, hc, sz, hsz, hval⟩
      · exact h
      · rw [hval]
        unfold storage_demand
        rw [hzero c hc]
        simp
    exact ⟨h2, growBuffer_noop _ _ _ _ (h2 ▸ Nat.zero_le _)⟩

/-- Witness for the amended C7: a changed camera with a 0×7 viewport produces
zero required sizes and leaves a fresh pool exactly unchanged. -/
theorem oit_zero_demand_no_mutation_witness :
    prepare_oit_buffers id [⟨⟨some (0, 7), true⟩, ⟨8, true⟩⟩]
        (OitBuffers.from_world id) =
      OitBuffers.from_world id :=
  ((oit_zero_demand_no_mutation id [⟨⟨some (0, 7), true⟩, ⟨8, true⟩⟩]
      (OitBuffers.from_world id)).1
    (by
      intro c hc sz hsz
      have hc' : c = ⟨⟨some (0, 7), true⟩, ⟨8, true⟩⟩ := by
        simpa [oitCameraQuery] using hc
      subst hc'
      have hsz' : ((0 : Nat), (7 : Nat)) = sz := Option.some.inj hsz
      exact Or.inl (by rw [← hsz']))).2

/-- C2 at its failing input: one changed 2×2 camera with 2 layers against a fresh
pool, with an allocator granting exactly the requested capacity. The
layer-storage buffer's capacity grows from 0 to 8, but because `remaining` is
computed as `required - capacity()` with the capacity read AFTER the reserve, 0
zero elements are appended (instead of `new_capacity - old_capacity = 8`) and
the logical length stays 0, not equal to the new capacity. -/
theorem oit_grow_zero_fill_skipped :
    (prepare_oit_buffers id [⟨⟨some (2, 2), true⟩, ⟨2, true⟩⟩]
        (OitBuffers.from_world id)).layers.capacity = 8 ∧
      (prepare_oit_buffers id [⟨⟨some (2, 2), true⟩, ⟨2, true⟩⟩]
          (OitBuffers.from_world id)).layers.data.length = 0 := by
  decide

/-- C5 at its failing input: the same frame with an allocator that over-provisions
by one element (`alloc n = n + 1`). The `usize` computation
`remaining = required - capacity()` is `8 - 9`, which underflows: it wraps to
`2 ^ 64 - 1`, so that many zero elements are appended (a debug build panics at
the subtraction instead). -/
theorem oit_grow_underflow_on_overprovision :
    (prepare_oit_buffers (fun n => n + 1)
        [⟨⟨some (2, 2), true⟩, ⟨2, true⟩⟩]
        (OitBuffers.from_world (fun n => n + 1))).layers.capacity = 9 ∧
      (prepare_oit_buffers (fun n => n + 1)
          [⟨⟨some (2, 2), true⟩, ⟨2, true⟩⟩]
          (OitBuffers.from_world (fun n => n + 1))).layers.data.length =
        2 ^ 64 - 1 := by
  have hgrow := growBuffer_grown (fun n => n + 1) 8 ((0, 0) : Nat × Nat)
    ⟨0, [], true, some []⟩ (by decide)
  have hcap : (prepare_oit_buffers (fun n => n + 1)
      [⟨⟨some (2, 2), true⟩, ⟨2, true⟩⟩]
      (OitBuffers.from_world (fun n => n + 1))).layers.capacity = 9 := hgrow.1
  have hdata : (prepare_oit_buffers (fun n => n + 1)
      [⟨⟨some (2, 2), true⟩, ⟨2, true⟩⟩]
      (OitBuffers.from_world (fun n => n + 1))).layers.data =
      [] ++ List.replicate (usizeSub 8 9) ((0, 0) : Nat × Nat) := hgrow.2.2
  refine ⟨hcap, ?_⟩
  rw [hdata]
  simp only [List.nil_append, List.length_replicate]
  decide
